import Mathlib

/-!
Verification of the UEM Dashboard backend (`src/main.py`, `src/schemas.py`).

The system stores three collections (`device`, `alert`, `smartperformance`)
in a document store and exposes HTTP endpoints; the core is the `/dashboard`
aggregation in `get_dashboard` (src/main.py lines 92-150).  Records are
embedded as Lean structures, a store state as three lists in insertion
order (the insertion-order identifier `_id` of a record is its index in the
list, strictly increasing with insertion as for MongoDB ObjectIds).
Datetimes are embedded as natural numbers, ordered as datetimes are.
The store handle `db` (from `database.py`, configured from the environment
at process start) is embedded as `Option Store`: `none` is the unconfigured
handle (`db is None` in the source).
-/

namespace UEM

/-- Device record shape (src/schemas.py, class Device).  The document store
is schemaless, so `type`, `severity` etc. are embedded as plain strings;
validated records use only the literal values of the schema. -/
structure Device where
  device_id : String
  hostname : String
  type : String
  manufacturer : String
  installed : Bool
  os : Option String
deriving DecidableEq, Repr

/-- Alert record shape (src/schemas.py, class Alert); `timestamp` is a
datetime embedded as a natural number. -/
structure Alert where
  device_id : String
  severity : String
  component : String
  message : String
  timestamp : Nat
deriving DecidableEq, Repr

/-- SmartPerformance record shape (src/schemas.py, class SmartPerformance).
Counter fields are `Option Nat` because stored documents may lack them:
`get_dashboard` reads them with `sp.get(field, 0)` (src/main.py 131-134). -/
structure SmartPerformance where
  period : String
  disk_reclaimed_count : Option Nat
  tune_pc_fix_count : Option Nat
  malware_fix_count : Option Nat
  internet_performance_count : Option Nat
deriving DecidableEq, Repr

/-- Store state: the three collections, each a list in insertion order.
A record's insertion-order identifier `_id` is its index in the list. -/
structure Store where
  device : List Device
  alert : List Alert
  smartperformance : List SmartPerformance
deriving DecidableEq, Repr

/-- The empty store: all three collections contain no records. -/
def emptyStore : Store := ⟨[], [], []⟩

/-! Record Store Adapter operations.  `database.py` is not under `src/`;
these model the adapter contract of spec section 4.1 and the MongoDB
operations used by `main.py` (count_documents, find_one with descending
`_id` sort, find/sort/limit, $group + $sort aggregation, insert). -/

/-- Modelled from the spec: `count(filter) -> integer`, the number of
matching records (`count_documents` in the source). -/
def countDocuments {α : Type} (p : α → Bool) (l : List α) : Nat :=
  l.countP p

/-- Modelled from the spec: `find_one(sort=[("_id", -1)])` returns the
record with the greatest insertion-order identifier, i.e. the most
recently inserted one; with `_id` = list index that is the last element. -/
def findOneByIdDesc {α : Type} (l : List α) : Option α :=
  l.getLast?

/-- Descending-count order used by the `{"$sort": {"count": -1}}` stage of
the aggregation pipelines (src/main.py 107, 118). -/
def countDesc (a b : String × Nat) : Prop := b.2 ≤ a.2

instance : DecidableRel countDesc := fun a b => Nat.decLe b.2 a.2

instance : IsTotal (String × Nat) countDesc := ⟨fun a b => Nat.le_total b.2 a.2⟩

instance : IsTrans (String × Nat) countDesc :=
  ⟨fun _ _ _ hab hbc => Nat.le_trans hbc hab⟩

/-- Modelled from the spec: `groupByCount(field)` groups all records by the
given field's value, returning each distinct value with its occurrence
count, ordered by count descending (the `$group`/`$sort` pipeline of
src/main.py 107 and 118; order among equal counts is whatever the store's
stable grouping returns). -/
def groupByCount {α : Type} (key : α → String) (l : List α) : List (String × Nat) :=
  List.insertionSort countDesc
    ((l.map key).dedup.map (fun v => (v, (l.map key).count v)))

/-- Descending-timestamp order used by `find().sort("timestamp", -1)`
(src/main.py 125); records carry their `_id` (list index) alongside. -/
def tsDesc (a b : Nat × Alert) : Prop := b.2.timestamp ≤ a.2.timestamp

instance : DecidableRel tsDesc := fun a b => Nat.decLe b.2.timestamp a.2.timestamp

instance : IsTotal (Nat × Alert) tsDesc := ⟨fun a b => Nat.le_total b.2.timestamp a.2.timestamp⟩

instance : IsTrans (Nat × Alert) tsDesc :=
  ⟨fun _ _ _ hab hbc => Nat.le_trans hbc hab⟩

/-- Modelled from the spec: `find(filter={}, sort=timestamp desc, limit=n)`
returns at most `n` records ordered by `timestamp` descending; each record
is paired with its insertion-order identifier (its index). -/
def findAlertsByTimestampDesc (l : List Alert) (n : Nat) : List (Nat × Alert) :=
  (List.insertionSort tsDesc l.enum).take n

/-! Output shape of `get_dashboard` (src/main.py 129-150). -/

/-- Section `smart_performance` of the dashboard response. -/
structure SmartPerformanceOut where
  disk_reclaimed_count : Nat
  tune_pc_fix_count : Nat
  malware_fix_count : Nat
  internet_performance_count : Nat
deriving DecidableEq, Repr

/-- One entry of `device_info.manufacturers` (src/main.py 108-111). -/
structure ManufacturerCount where
  manufacturer : String
  count : Nat
deriving DecidableEq, Repr

/-- One entry of `alerts.by_component` (src/main.py 119-122). -/
structure ComponentCount where
  component : String
  count : Nat
deriving DecidableEq, Repr

/-- One entry of `alerts.top5`: the internal `_id` replaced by a string
`id` field, all other fields of the alert kept (src/main.py 126-127). -/
structure TopAlert where
  id : String
  device_id : String
  severity : String
  component : String
  message : String
  timestamp : Nat
deriving DecidableEq, Repr

/-- Section `device_info` of the dashboard response. -/
structure DeviceInfo where
  total : Nat
  installed : Nat
  not_installed : Nat
  laptops : Nat
  desktops : Nat
  manufacturers : List ManufacturerCount
deriving DecidableEq, Repr

/-- Section `alerts` of the dashboard response. -/
structure AlertsOut where
  critical : Nat
  warning : Nat
  by_component : List ComponentCount
  top5 : List TopAlert
deriving DecidableEq, Repr

/-- The full dashboard response object (src/main.py 129-150). -/
structure DashboardSummary where
  smart_performance : SmartPerformanceOut
  device_info : DeviceInfo
  alerts : AlertsOut
deriving DecidableEq, Repr

/-- Turns an alert and its insertion-order identifier into a `top5` entry:
`a["id"] = str(a.pop("_id", ""))` (src/main.py 126-127). -/
def toTopAlert (p : Nat × Alert) : TopAlert :=
  ⟨toString p.1, p.2.device_id, p.2.severity, p.2.component, p.2.message, p.2.timestamp⟩

/-- The aggregation core of `get_dashboard` on a configured store
(src/main.py 96-150). -/
def computeDashboard (s : Store) : DashboardSummary :=
  let sp := findOneByIdDesc s.smartperformance
  { smart_performance :=
      { disk_reclaimed_count := (sp.bind SmartPerformance.disk_reclaimed_count).getD 0
        tune_pc_fix_count := (sp.bind SmartPerformance.tune_pc_fix_count).getD 0
        malware_fix_count := (sp.bind SmartPerformance.malware_fix_count).getD 0
        internet_performance_count := (sp.bind SmartPerformance.internet_performance_count).getD 0 }
    device_info :=
      { total := countDocuments (fun _ => true) s.device
        installed := countDocuments (fun d => d.installed) s.device
        not_installed := countDocuments (fun d => !d.installed) s.device
        laptops := countDocuments (fun d => d.type == "laptop") s.device
        desktops := countDocuments (fun d => d.type == "desktop") s.device
        manufacturers :=
          (groupByCount Device.manufacturer s.device).map (fun p => ⟨p.1, p.2⟩) }
    alerts :=
      { critical := countDocuments (fun a => a.severity == "critical") s.alert
        warning := countDocuments (fun a => a.severity == "warning") s.alert
        by_component :=
          (groupByCount Alert.component s.alert).map (fun p => ⟨p.1, p.2⟩)
        top5 := (findAlertsByTimestampDesc s.alert 5).map toTopAlert } }

/-- The `/dashboard` handler (src/main.py 92-150): HTTP 500 with no store
access when the handle is unconfigured, otherwise the aggregated summary. -/
def get_dashboard (db : Option Store) : Except Nat DashboardSummary :=
  match db with
  | none => .error 500
  | some s => .ok (computeDashboard s)

/-! Demo Seeder (src/main.py 52-88). -/

/-- The five fixed sample devices of the seeder (src/main.py 58-64). -/
def seedDevices : List Device :=
  [⟨"D-1001", "LAPTOP-01", "laptop", "Dell", true, some "Windows 11"⟩,
   ⟨"D-1002", "DESKTOP-01", "desktop", "HP", false, some "Windows 10"⟩,
   ⟨"D-1003", "LAPTOP-02", "laptop", "Lenovo", true, some "Windows 11"⟩,
   ⟨"D-1004", "DESKTOP-02", "desktop", "Dell", true, some "Windows 10"⟩,
   ⟨"D-1005", "LAPTOP-03", "laptop", "Acer", false, some "Windows 10"⟩]

/-- The six fixed sample alerts of the seeder (src/main.py 68-75); each
`timestamp` is `datetime.utcnow()` at seeding time, embedded as the value
of a clock at the six successive call sites. -/
def seedAlerts (clock : Nat → Nat) : List Alert :=
  [⟨"D-1001", "critical", "CPU", "CPU over 95% for 10m", clock 0⟩,
   ⟨"D-1002", "warning", "HDD", "Disk fragmented", clock 1⟩,
   ⟨"D-1003", "warning", "RAM", "High memory usage", clock 2⟩,
   ⟨"D-1004", "critical", "Battery", "Battery health low", clock 3⟩,
   ⟨"D-1005", "warning", "CPU", "Background process spike", clock 4⟩,
   ⟨"D-1001", "critical", "HDD", "SMART errors detected", clock 5⟩]

/-- The fixed sample SmartPerformance record (src/main.py 79-85). -/
def seedSmartPerformance : SmartPerformance :=
  ⟨"week", some 120, some 85, some 32, some 74⟩

/-- Seeding a configured store (src/main.py 56-86): for each collection,
insert the fixed sample records exactly when the collection's document
count is zero. -/
def seedStore (clock : Nat → Nat) (s : Store) : Store :=
  { device :=
      if countDocuments (fun _ => true) s.device = 0
      then s.device ++ seedDevices else s.device
    alert :=
      if countDocuments (fun _ => true) s.alert = 0
      then s.alert ++ seedAlerts clock else s.alert
    smartperformance :=
      if countDocuments (fun _ => true) s.smartperformance = 0
      then s.smartperformance ++ [seedSmartPerformance] else s.smartperformance }

/-- The `/seed` handler (src/main.py 52-88): HTTP 500 with no store access
when the handle is unconfigured, otherwise the seeded store and
`{"status": "ok"}`. -/
def seed_demo_data (clock : Nat → Nat) (db : Option Store) :
    Option Store × Except Nat String :=
  match db with
  | none => (none, .error 500)
  | some s => (some (seedStore clock s), .ok "ok")

/-! Schema introspection (src/main.py 153-159, src/schemas.py). -/

/-- One field definition of an entity's schema (name, type with
constraints, required or optional), as serialized by `/schema`. -/
structure SchemaField where
  name : String
  type : String
  required : Bool
deriving DecidableEq, Repr

/-- Field definitions of `Device` (src/schemas.py 10-16). -/
def deviceSchema : List SchemaField :=
  [⟨"device_id", "string", true⟩,
   ⟨"hostname", "string", true⟩,
   ⟨"type", "enum:laptop|desktop", true⟩,
   ⟨"manufacturer", "string", true⟩,
   ⟨"installed", "boolean", true⟩,
   ⟨"os", "string", false⟩]

/-- Field definitions of `Alert` (src/schemas.py 18-23). -/
def alertSchema : List SchemaField :=
  [⟨"device_id", "string", true⟩,
   ⟨"severity", "enum:critical|warning|info", true⟩,
   ⟨"component", "enum:CPU|HDD|RAM|Battery", true⟩,
   ⟨"message", "string", true⟩,
   ⟨"timestamp", "datetime", false⟩]

/-- Field definitions of `SmartPerformance` (src/schemas.py 25-30). -/
def smartPerformanceSchema : List SchemaField :=
  [⟨"period", "string", true⟩,
   ⟨"disk_reclaimed_count", "integer:ge0", false⟩,
   ⟨"tune_pc_fix_count", "integer:ge0", false⟩,
   ⟨"malware_fix_count", "integer:ge0", false⟩,
   ⟨"internet_performance_count", "integer:ge0", false⟩]

/-- The `/schema` handler (src/main.py 153-159): serializes the three
pydantic models' field definitions; it reads nothing from the store (the
handle is passed to exhibit that independence). -/
def get_schema_definitions (db : Option Store) : List (String × List SchemaField) :=
  [("device", deviceSchema),
   ("alert", alertSchema),
   ("smartperformance", smartPerformanceSchema)]

/-! Store-operation trace of the dashboard handler, for the read-only
(frame) property: the operations `get_dashboard` issues against the store,
in source order (src/main.py 97-125), plus the write operations the
adapter offers (used only by the seeder). -/

/-- One store operation of the adapter interface. -/
inductive StoreOp where
  | findOneSmartPerformanceLatest : StoreOp
  | countDevice (p : Device → Bool) : StoreOp
  | aggregateDeviceByManufacturer : StoreOp
  | countAlert (p : Alert → Bool) : StoreOp
  | aggregateAlertByComponent : StoreOp
  | findAlertsSortedLimit (n : Nat) : StoreOp
  | insertManyDevice (l : List Device) : StoreOp
  | insertManyAlert (l : List Alert) : StoreOp
  | insertOneSmartPerformance (r : SmartPerformance) : StoreOp

/-- Whether a store operation is a write (insert, update or delete). -/
def StoreOp.isWrite : StoreOp → Bool
  | .insertManyDevice _ => true
  | .insertManyAlert _ => true
  | .insertOneSmartPerformance _ => true
  | _ => false

/-- Effect of one store operation on the store state: inserts append,
reads leave the state unchanged. -/
def applyOp (s : Store) : StoreOp → Store
  | .insertManyDevice l => { s with device := s.device ++ l }
  | .insertManyAlert l => { s with alert := s.alert ++ l }
  | .insertOneSmartPerformance r => { s with smartperformance := s.smartperformance ++ [r] }
  | _ => s

/-- The operations `get_dashboard` issues, in source order
(src/main.py 97, 100-104, 110, 114-115, 121, 125). -/
def dashboardOps : List StoreOp :=
  [.findOneSmartPerformanceLatest,
   .countDevice (fun _ => true),
   .countDevice (fun d => d.installed),
   .countDevice (fun d => !d.installed),
   .countDevice (fun d => d.type == "laptop"),
   .countDevice (fun d => d.type == "desktop"),
   .aggregateDeviceByManufacturer,
   .countAlert (fun a => a.severity == "critical"),
   .countAlert (fun a => a.severity == "warning"),
   .aggregateAlertByComponent,
   .findAlertsSortedLimit 5]

/-- Sample store used to exercise the latest-SmartPerformance selection:
two records, the later one lacking two counter fields. -/
def sampleSmartStore : Store :=
  ⟨[], [], [⟨"month", some 1, some 2, some 3, some 4⟩, ⟨"week", some 7, none, some 3, none⟩]⟩

/-- Sample store with two alerts at distinct timestamps. -/
def sampleAlertStore : Store :=
  ⟨[], [⟨"D-1", "critical", "CPU", "m1", 10⟩, ⟨"D-2", "warning", "HDD", "m2", 20⟩], []⟩

/-- Sample store with a single alert of severity `info`. -/
def infoAlertStore : Store :=
  ⟨[], [⟨"D-9", "info", "RAM", "mem", 5⟩], []⟩

/-- Sample store with two devices of one manufacturer and one of another. -/
def sampleDeviceStore : Store :=
  ⟨[⟨"D-1", "H1", "laptop", "Dell", true, none⟩,
    ⟨"D-2", "H2", "desktop", "HP", false, none⟩,
    ⟨"D-3", "H3", "laptop", "Dell", true, none⟩], [], []⟩

end UEM

namespace UEM

/-- The grouped list is a permutation of the distinct key values paired
with their occurrence counts. -/
theorem groupByCount_perm {α : Type} (key : α → String) (l : List α) :
    List.Perm (groupByCount key l)
      ((l.map key).dedup.map (fun v => (v, (l.map key).count v))) :=
  List.perm_insertionSort _ _

/-- The grouped list is ordered by count descending. -/
theorem groupByCount_sorted {α : Type} (key : α → String) (l : List α) :
    List.Sorted countDesc (groupByCount key l) :=
  List.sorted_insertionSort _ _

/-- The first components of the grouped list are a permutation of the
deduplicated key values. -/
theorem groupByCount_fst_perm {α : Type} (key : α → String) (l : List α) :
    List.Perm ((groupByCount key l).map Prod.fst) ((l.map key).dedup) := by
  have h := (groupByCount_perm key l).map Prod.fst
  rw [List.map_map] at h
  have hid : (Prod.fst ∘ fun v => (v, (l.map key).count v)) = id := rfl
  rw [hid, List.map_id] at h
  exact h

/-- Each distinct key value appears exactly once in the grouped list. -/
theorem groupByCount_keys_nodup {α : Type} (key : α → String) (l : List α) :
    ((groupByCount key l).map Prod.fst).Nodup :=
  (groupByCount_fst_perm key l).nodup_iff.2 (List.nodup_dedup _)

/-- A value appears among the grouped keys exactly when some record has it
as its key. -/
theorem groupByCount_mem_keys {α : Type} (key : α → String) (l : List α) (v : String) :
    v ∈ (groupByCount key l).map Prod.fst ↔ v ∈ l.map key := by
  rw [(groupByCount_fst_perm key l).mem_iff, List.mem_dedup]

/-- Every entry of the grouped list carries the occurrence count of its
key value. -/
theorem groupByCount_count {α : Type} (key : α → String) (l : List α)
    (p : String × Nat) (hp : p ∈ groupByCount key l) :
    p.2 = (l.map key).count p.1 := by
  rcases List.mem_map.1 ((groupByCount_perm key l).mem_iff.1 hp) with ⟨v, _, rfl⟩
  rfl

/-- The counts in the grouped list sum to the number of records. -/
theorem groupByCount_sum {α : Type} (key : α → String) (l : List α) :
    ((groupByCount key l).map Prod.snd).sum = l.length := by
  have hperm := ((groupByCount_perm key l).map Prod.snd).sum_eq
  have hded : (((l.map key).dedup.map
      (fun v => (v, (l.map key).count v))).map Prod.snd).sum = (l.map key).length := by
    rw [List.map_map]
    exact List.sum_map_count_dedup_eq_length (l.map key)
  rw [hperm, hded, List.length_map]

/-- Claim C1: on the empty store (all three collections empty),
`computeDashboard` (GET /dashboard) returns a `DashboardSummary` in which
every numeric field equals 0, every list (`manufacturers`, `by_component`,
`top5`) is empty, and all four `smart_performance` counters are 0; no
field is null or absent (the result record carries every field). -/
theorem claim_C1 :
    get_dashboard (some emptyStore) =
      .ok ⟨⟨0, 0, 0, 0⟩, ⟨0, 0, 0, 0, 0, []⟩, ⟨0, 0, [], []⟩⟩ := rfl

/-- Claim C2: on the store produced by the Demo Seeder from the empty
store (the fixed sample of 5 devices and 6 alerts), `computeDashboard`
returns `device_info.total = 5`, `laptops = 3`, `desktops = 2`,
`installed = 3`, `not_installed = 2`, a `manufacturers` list whose first
entry is `{Dell, 2}`, `alerts.critical = 3`, and `alerts.warning = 3`,
for every clock used during seeding. -/
theorem claim_C2 (clock : Nat → Nat) :
    ∃ d : DashboardSummary,
      get_dashboard (seed_demo_data clock (some emptyStore)).1 = .ok d ∧
      d.device_info.total = 5 ∧
      d.device_info.laptops = 3 ∧
      d.device_info.desktops = 2 ∧
      d.device_info.installed = 3 ∧
      d.device_info.not_installed = 2 ∧
      d.device_info.manufacturers.head? = some ⟨"Dell", 2⟩ ∧
      d.alerts.critical = 3 ∧
      d.alerts.warning = 3 :=
  ⟨_, rfl, rfl, rfl, rfl, rfl, rfl, rfl, rfl, rfl⟩

/-- Witness for C2 at the identity clock. -/
theorem claim_C2_witness :
    ∃ d : DashboardSummary,
      get_dashboard (seed_demo_data (fun n => n) (some emptyStore)).1 = .ok d ∧
      d.device_info.total = 5 ∧
      d.device_info.laptops = 3 ∧
      d.device_info.desktops = 2 ∧
      d.device_info.installed = 3 ∧
      d.device_info.not_installed = 2 ∧
      d.device_info.manufacturers.head? = some ⟨"Dell", 2⟩ ∧
      d.alerts.critical = 3 ∧
      d.alerts.warning = 3 :=
  claim_C2 (fun n => n)

/-- Claim C7: with an unconfigured store handle (`db is None`), both
POST /seed and GET /dashboard fail with HTTP 500 and perform no store
operation: no partial result is returned and the store state (the handle)
is unchanged. -/
theorem claim_C7 (clock : Nat → Nat) :
    seed_demo_data clock none = (none, .error 500) ∧
    get_dashboard none = .error 500 :=
  ⟨rfl, rfl⟩

/-- Witness for C7 at the identity clock. -/
theorem claim_C7_witness :
    seed_demo_data (fun n => n) none = (none, .error 500) ∧
    get_dashboard none = .error 500 :=
  claim_C7 (fun n => n)

/-- Claim C8: the GET /schema output is static and independent of the
database state or content: for any two store states, including the
unconfigured one, the schema endpoint returns equal results, namely the
fixed field definitions of the three entities. -/
theorem claim_C8 (a b : Option Store) :
    get_schema_definitions a = get_schema_definitions b ∧
    get_schema_definitions a =
      [("device", deviceSchema),
       ("alert", alertSchema),
       ("smartperformance", smartPerformanceSchema)] :=
  ⟨rfl, rfl⟩

/-- Witness for C8: unconfigured handle against a populated store. -/
theorem claim_C8_witness :
    get_schema_definitions none = get_schema_definitions (some sampleDeviceStore) ∧
    get_schema_definitions none =
      [("device", deviceSchema),
       ("alert", alertSchema),
       ("smartperformance", smartPerformanceSchema)] :=
  claim_C8 none (some sampleDeviceStore)

/-- Claim C9: `computeDashboard` is read-only: the operation trace of
GET /dashboard contains no insert, update or delete against any of the
three collections, so replaying it against any store state leaves the
state unchanged. -/
theorem claim_C9 (s : Store) :
    List.foldl applyOp s dashboardOps = s ∧
    ∀ op ∈ dashboardOps, op.isWrite = false := by
  refine ⟨rfl, ?_⟩
  intro op h
  simp only [dashboardOps, List.mem_cons, List.not_mem_nil, or_false] at h
  rcases h with rfl | rfl | rfl | rfl | rfl | rfl | rfl | rfl | rfl | rfl | rfl <;> rfl

/-- Claim C3: for every store state, `alerts.top5` has length equal to
`min 5 (number of alert records)`, is sorted by `timestamp` descending,
and each entry arises from an alert record of the store with the internal
store identifier replaced by a string `id` field and all other fields
kept (`toTopAlert`). -/
theorem claim_C3 (s : Store) :
    (computeDashboard s).alerts.top5.length = min 5 s.alert.length ∧
    List.Sorted (fun a b : TopAlert => b.timestamp ≤ a.timestamp)
      (computeDashboard s).alerts.top5 ∧
    ∀ e ∈ (computeDashboard s).alerts.top5,
      ∃ p ∈ s.alert.enum, e = toTopAlert p := by
  have htop : (computeDashboard s).alerts.top5
      = ((List.insertionSort tsDesc s.alert.enum).take 5).map toTopAlert := rfl
  refine ⟨?_, ?_, ?_⟩
  · rw [htop, List.length_map, List.length_take, List.length_insertionSort,
      List.enum_length]
  · rw [htop]
    have hs : List.Sorted tsDesc (List.insertionSort tsDesc s.alert.enum) :=
      List.sorted_insertionSort tsDesc _
    have ht : List.Sorted tsDesc ((List.insertionSort tsDesc s.alert.enum).take 5) :=
      List.Pairwise.sublist (List.take_sublist 5 _) hs
    exact List.Pairwise.map toTopAlert (fun a b h => h) ht
  · intro e he
    rw [htop] at he
    rcases List.mem_map.1 he with ⟨p, hp, rfl⟩
    have hp2 : p ∈ List.insertionSort tsDesc s.alert.enum :=
      List.mem_of_mem_take hp
    have hp3 : p ∈ s.alert.enum := by simpa using hp2
    exact ⟨p, hp3, rfl⟩

/-- Witness for C3 at a two-alert store: `top5` has both entries and the
latest alert appears as a `toTopAlert` image of a stored record. -/
theorem claim_C3_witness :
    (computeDashboard sampleAlertStore).alerts.top5.length =
      min 5 sampleAlertStore.alert.length ∧
    ∃ p ∈ sampleAlertStore.alert.enum,
      (⟨"1", "D-2", "warning", "HDD", "m2", 20⟩ : TopAlert) = toTopAlert p :=
  ⟨(claim_C3 sampleAlertStore).1,
   (claim_C3 sampleAlertStore).2.2 _ (by decide)⟩

/-- Claim C4: the `smart_performance` section is taken from the
SmartPerformance record with the greatest insertion-order identifier
(the most recently inserted one); if the collection is empty all four
counters are 0, and a counter field absent from the chosen record is
reported as 0. -/
theorem claim_C4 (s : Store) :
    (s.smartperformance = [] →
      (computeDashboard s).smart_performance = ⟨0, 0, 0, 0⟩) ∧
    (∀ r, s.smartperformance.getLast? = some r →
      (computeDashboard s).smart_performance =
        ⟨r.disk_reclaimed_count.getD 0, r.tune_pc_fix_count.getD 0,
         r.malware_fix_count.getD 0, r.internet_performance_count.getD 0⟩) ∧
    (s.smartperformance ≠ [] →
      ∃ j r, (j, r) ∈ s.smartperformance.enum ∧
        (∀ p ∈ s.smartperformance.enum, p.1 ≤ j) ∧
        s.smartperformance.getLast? = some r ∧
        (computeDashboard s).smart_performance =
          ⟨r.disk_reclaimed_count.getD 0, r.tune_pc_fix_count.getD 0,
           r.malware_fix_count.getD 0, r.internet_performance_count.getD 0⟩) := by
  have h2 : ∀ r, s.smartperformance.getLast? = some r →
      (computeDashboard s).smart_performance =
        ⟨r.disk_reclaimed_count.getD 0, r.tune_pc_fix_count.getD 0,
         r.malware_fix_count.getD 0, r.internet_performance_count.getD 0⟩ := by
    intro r hr
    simp [computeDashboard, findOneByIdDesc, hr]
  refine ⟨?_, h2, ?_⟩
  · intro h
    have hnone : s.smartperformance.getLast? = none := by rw [h]; rfl
    simp [computeDashboard, findOneByIdDesc, hnone]
  · intro h
    obtain ⟨r, hr⟩ : ∃ r, s.smartperformance.getLast? = some r := by
      cases hl : s.smartperformance.getLast? with
      | some r => exact ⟨r, rfl⟩
      | none => exact absurd (List.getLast?_eq_none_iff.1 hl) h
    refine ⟨s.smartperformance.length - 1, r, ?_, ?_, hr, h2 r hr⟩
    · have hg : s.smartperformance[s.smartperformance.length - 1]? = some r := by
        rw [← List.getLast?_eq_getElem?]
        exact hr
      exact List.mem_enum_iff_getElem?.2 hg
    · intro p hp
      have hgp := List.mem_enum_iff_getElem?.1 hp
      have hlt : p.1 < s.smartperformance.length := by
        by_contra hlt
        simp [List.getElem?_eq_none (Nat.le_of_not_lt hlt)] at hgp
      show p.1 ≤ s.smartperformance.length - 1
      omega

/-- Witness for C4: the empty store yields all-zero counters, and on a
two-record store the later record (with two absent counters) is chosen. -/
theorem claim_C4_witness :
    (computeDashboard emptyStore).smart_performance = ⟨0, 0, 0, 0⟩ ∧
    (computeDashboard sampleSmartStore).smart_performance = ⟨7, 0, 3, 0⟩ ∧
    (∃ j r, (j, r) ∈ sampleSmartStore.smartperformance.enum ∧
      (∀ p ∈ sampleSmartStore.smartperformance.enum, p.1 ≤ j) ∧
      sampleSmartStore.smartperformance.getLast? = some r ∧
      (computeDashboard sampleSmartStore).smart_performance =
        ⟨r.disk_reclaimed_count.getD 0, r.tune_pc_fix_count.getD 0,
         r.malware_fix_count.getD 0, r.internet_performance_count.getD 0⟩) :=
  ⟨(claim_C4 emptyStore).1 rfl,
   (claim_C4 sampleSmartStore).2.1 ⟨"week", some 7, none, some 3, none⟩ rfl,
   (claim_C4 sampleSmartStore).2.2 (by decide)⟩

/-- Claim C5: `manufacturers` groups all Device records by manufacturer
and `by_component` groups all Alert records by component: each list is
ordered by count descending, contains each distinct field value exactly
once, covers exactly the values occurring in the records, and each entry
carries the occurrence count of its value. -/
theorem claim_C5 (s : Store) :
    (List.Sorted (fun a b : ManufacturerCount => b.count ≤ a.count)
        (computeDashboard s).device_info.manufacturers ∧
      ((computeDashboard s).device_info.manufacturers.map
        ManufacturerCount.manufacturer).Nodup ∧
      (∀ v, (∃ e ∈ (computeDashboard s).device_info.manufacturers,
          e.manufacturer = v) ↔ ∃ dv ∈ s.device, dv.manufacturer = v) ∧
      (∀ e ∈ (computeDashboard s).device_info.manufacturers,
        e.count = (s.device.map Device.manufacturer).count e.manufacturer)) ∧
    (List.Sorted (fun a b : ComponentCount => b.count ≤ a.count)
        (computeDashboard s).alerts.by_component ∧
      ((computeDashboard s).alerts.by_component.map
        ComponentCount.component).Nodup ∧
      (∀ v, (∃ e ∈ (computeDashboard s).alerts.by_component,
          e.component = v) ↔ ∃ a ∈ s.alert, a.component = v) ∧
      (∀ e ∈ (computeDashboard s).alerts.by_component,
        e.count = (s.alert.map Alert.component).count e.component)) := by
  have hm : (computeDashboard s).device_info.manufacturers
      = (groupByCount Device.manufacturer s.device).map
          (fun p => (⟨p.1, p.2⟩ : ManufacturerCount)) := rfl
  have hc : (computeDashboard s).alerts.by_component
      = (groupByCount Alert.component s.alert).map
          (fun p => (⟨p.1, p.2⟩ : ComponentCount)) := rfl
  rw [hm, hc]
  refine ⟨⟨?_, ?_, ?_, ?_⟩, ⟨?_, ?_, ?_, ?_⟩⟩
  · exact List.Pairwise.map _ (fun a b h => h) (groupByCount_sorted _ _)
  · rw [List.map_map]
    exact groupByCount_keys_nodup Device.manufacturer s.device
  · intro v
    constructor
    · rintro ⟨e, he, rfl⟩
      rcases List.mem_map.1 he with ⟨p, hp, rfl⟩
      have hv : p.1 ∈ s.device.map Device.manufacturer :=
        (groupByCount_mem_keys _ _ _).1 (List.mem_map.2 ⟨p, hp, rfl⟩)
      rcases List.mem_map.1 hv with ⟨dv, hdv, hdm⟩
      exact ⟨dv, hdv, hdm⟩
    · rintro ⟨dv, hdv, rfl⟩
      have hv : dv.manufacturer ∈ s.device.map Device.manufacturer :=
        List.mem_map.2 ⟨dv, hdv, rfl⟩
      rcases List.mem_map.1 ((groupByCount_mem_keys _ _ _).2 hv)
        with ⟨p, hp, hfst⟩
      exact ⟨⟨p.1, p.2⟩, List.mem_map.2 ⟨p, hp, rfl⟩, hfst⟩
  · intro e he
    rcases List.mem_map.1 he with ⟨p, hp, rfl⟩
    exact groupByCount_count Device.manufacturer s.device p hp
  · exact List.Pairwise.map _ (fun a b h => h) (groupByCount_sorted _ _)
  · rw [List.map_map]
    exact groupByCount_keys_nodup Alert.component s.alert
  · intro v
    constructor
    · rintro ⟨e, he, rfl⟩
      rcases List.mem_map.1 he with ⟨p, hp, rfl⟩
      have hv : p.1 ∈ s.alert.map Alert.component :=
        (groupByCount_mem_keys _ _ _).1 (List.mem_map.2 ⟨p, hp, rfl⟩)
      rcases List.mem_map.1 hv with ⟨a, ha, ham⟩
      exact ⟨a, ha, ham⟩
    · rintro ⟨a, ha, rfl⟩
      have hv : a.component ∈ s.alert.map Alert.component :=
        List.mem_map.2 ⟨a, ha, rfl⟩
      rcases List.mem_map.1 ((groupByCount_mem_keys _ _ _).2 hv)
        with ⟨p, hp, hfst⟩
      exact ⟨⟨p.1, p.2⟩, List.mem_map.2 ⟨p, hp, rfl⟩, hfst⟩
  · intro e he
    rcases List.mem_map.1 he with ⟨p, hp, rfl⟩
    exact groupByCount_count Alert.component s.alert p hp

/-- Witness for C5 at a three-device store (Dell twice, HP once). -/
theorem claim_C5_witness :
    ((computeDashboard sampleDeviceStore).device_info.manufacturers.map
      ManufacturerCount.manufacturer).Nodup ∧
    (∃ dv ∈ sampleDeviceStore.device, dv.manufacturer = "Dell") ∧
    (⟨"Dell", 2⟩ : ManufacturerCount).count =
      (sampleDeviceStore.device.map Device.manufacturer).count
        (⟨"Dell", 2⟩ : ManufacturerCount).manufacturer :=
  ⟨(claim_C5 sampleDeviceStore).1.2.1,
   ((claim_C5 sampleDeviceStore).1.2.2.1 "Dell").1 ⟨⟨"Dell", 2⟩, by decide, rfl⟩,
   (claim_C5 sampleDeviceStore).1.2.2.2 ⟨"Dell", 2⟩ (by decide)⟩

/-- Claim C6: the Demo Seeder inserts its fixed sample records into a
collection exactly when that collection is empty, independently for each
collection, and a second invocation leaves every collection's record
count unchanged. -/
theorem claim_C6 (s : Store) (c1 c2 : Nat → Nat) :
    ((seedStore c1 s).device ≠ s.device ↔ s.device = []) ∧
    ((seedStore c1 s).alert ≠ s.alert ↔ s.alert = []) ∧
    ((seedStore c1 s).smartperformance ≠ s.smartperformance ↔
      s.smartperformance = []) ∧
    (s.device = [] → (seedStore c1 s).device = seedDevices) ∧
    (s.alert = [] → (seedStore c1 s).alert = seedAlerts c1) ∧
    (s.smartperformance = [] →
      (seedStore c1 s).smartperformance = [seedSmartPerformance]) ∧
    (seedStore c2 (seedStore c1 s)).device.length =
      (seedStore c1 s).device.length ∧
    (seedStore c2 (seedStore c1 s)).alert.length =
      (seedStore c1 s).alert.length ∧
    (seedStore c2 (seedStore c1 s)).smartperformance.length =
      (seedStore c1 s).smartperformance.length := by
  have hIf : ∀ {α : Type} [DecidableEq α] (l a : List α),
      (if countDocuments (fun _ => true) l = 0 then l ++ a else l)
        = if l = [] then a else l := by
    intro α inst l a
    cases l with
    | nil => simp [countDocuments]
    | cons x t => simp [countDocuments, List.countP_cons]
  have hNe : ∀ {α : Type} [DecidableEq α] (l a : List α), a ≠ [] →
      ((if l = [] then a else l) ≠ l ↔ l = []) := by
    intro α inst l a ha
    by_cases h : l = [] <;> simp [h, ha]
  have hNonempty : ∀ {α : Type} [DecidableEq α] (l a : List α), a ≠ [] →
      (if l = [] then a else l) ≠ [] := by
    intro α inst l a ha
    by_cases h : l = [] <;> simp [h, ha]
  have hdev : seedDevices ≠ [] := by simp [seedDevices]
  have hal : seedAlerts c1 ≠ [] := by simp [seedAlerts]
  have hsp : ([seedSmartPerformance] : List SmartPerformance) ≠ [] := by simp
  have hPD : ∀ (c : Nat → Nat) (t : Store),
      (seedStore c t).device = if t.device = [] then seedDevices else t.device :=
    fun c t => hIf t.device seedDevices
  have hPA : ∀ (c : Nat → Nat) (t : Store),
      (seedStore c t).alert = if t.alert = [] then seedAlerts c else t.alert :=
    fun c t => hIf t.alert (seedAlerts c)
  have hPS : ∀ (c : Nat → Nat) (t : Store),
      (seedStore c t).smartperformance =
        if t.smartperformance = [] then [seedSmartPerformance] else t.smartperformance :=
    fun c t => hIf t.smartperformance [seedSmartPerformance]
  have hDne : (seedStore c1 s).device ≠ [] := by
    rw [hPD]; exact hNonempty _ _ hdev
  have hAne : (seedStore c1 s).alert ≠ [] := by
    rw [hPA]; exact hNonempty _ _ hal
  have hSne : (seedStore c1 s).smartperformance ≠ [] := by
    rw [hPS]; exact hNonempty _ _ hsp
  refine ⟨?_, ?_, ?_, ?_, ?_, ?_, ?_, ?_, ?_⟩
  · rw [hPD]; exact hNe _ _ hdev
  · rw [hPA]; exact hNe _ _ hal
  · rw [hPS]; exact hNe _ _ hsp
  · intro h; rw [hPD, if_pos h]
  · intro h; rw [hPA, if_pos h]
  · intro h; rw [hPS, if_pos h]
  · rw [hPD c2, if_neg hDne]
  · rw [hPA c2, if_neg hAne]
  · rw [hPS c2, if_neg hSne]

/-- Witness for C6 at the empty store: the first seed inserts the sample
data into each collection and the second seed changes no count. -/
theorem claim_C6_witness :
    (seedStore (fun n => n) emptyStore).device ≠ emptyStore.device ∧
    (seedStore (fun n => n) emptyStore).device = seedDevices ∧
    (seedStore (fun n => n) emptyStore).alert = seedAlerts (fun n => n) ∧
    (seedStore (fun n => n) emptyStore).smartperformance = [seedSmartPerformance] ∧
    (seedStore (fun n => n) (seedStore (fun n => n) emptyStore)).device.length =
      (seedStore (fun n => n) emptyStore).device.length :=
  ⟨(claim_C6 emptyStore (fun n => n) (fun n => n)).1.mpr rfl,
   (claim_C6 emptyStore (fun n => n) (fun n => n)).2.2.2.1 rfl,
   (claim_C6 emptyStore (fun n => n) (fun n => n)).2.2.2.2.1 rfl,
   (claim_C6 emptyStore (fun n => n) (fun n => n)).2.2.2.2.2.1 rfl,
   (claim_C6 emptyStore (fun n => n) (fun n => n)).2.2.2.2.2.2.1⟩

/-- Claim C10: the counts in `alerts.by_component` always sum to the total
number of alert records, alerts of severity `info` included; hence
`critical + warning` can be strictly smaller than that sum, as an `info`
alert counts in `by_component` but in neither severity counter. -/
theorem claim_C10 :
    (∀ s : Store,
      (((computeDashboard s).alerts.by_component).map ComponentCount.count).sum
        = s.alert.length) ∧
    ∃ s : Store,
      (computeDashboard s).alerts.critical + (computeDashboard s).alerts.warning <
        (((computeDashboard s).alerts.by_component).map ComponentCount.count).sum := by
  constructor
  · intro s
    have hc : (computeDashboard s).alerts.by_component
        = (groupByCount Alert.component s.alert).map
            (fun p => (⟨p.1, p.2⟩ : ComponentCount)) := rfl
    rw [hc, List.map_map]
    exact groupByCount_sum Alert.component s.alert
  · exact ⟨infoAlertStore, by decide⟩

/-- Witness for C9 at the empty store and the first issued operation. -/
theorem claim_C9_witness :
    List.foldl applyOp emptyStore dashboardOps = emptyStore ∧
    StoreOp.isWrite .findOneSmartPerformanceLatest = false :=
  ⟨(claim_C9 emptyStore).1,
   (claim_C9 emptyStore).2 _ (by simp [dashboardOps])⟩

end UEM
